import Mathlib

/-!
# TransactionObserver — shallow embedding

A shallow embedding of `packages/web3-core-method/src/observers/TransactionObserver.js`.

The tracker watches one transaction until it has accumulated
`blockConfirmations` confirming blocks, counting observation cycles against a
`timeout` budget.  It runs in one of two modes:

* push mode (`startSocketObserver`, lines 102–144): each new-heads announcement
  fetches the receipt, deduplicates by block number, counts confirmations;
* poll mode (`startHttpObserver`, lines 154–197): each interval tick fetches
  the receipt and the confirming block and applies the chain-continuity policy
  `isValidConfirmation`.

Each observation cycle is modelled as a function from the observer's mutable
state and the cycle's external inputs (the values the asynchronous adapter
calls resolve to) to the updated state, the ordered list of effects the cycle
performs (adapter calls, observer callbacks, resource releases), and whether
the strategy's resource (subscription / interval) is still active afterwards.
A run feeds a list of cycle inputs through the cycle function, stopping as
soon as the resource has been released.
-/

set_option autoImplicit false

namespace TransactionObserver

/-- A block header as the tracker reads it: `hash`, `parentHash` and `number`
(height).  Hash identifiers are modelled as natural numbers. -/
structure Block where
  hash : Nat
  parentHash : Nat
  number : Nat
deriving DecidableEq, Repr

/-- A transaction receipt; the tracker only ever reads its `blockHash`. -/
structure Receipt where
  blockHash : Nat
deriving DecidableEq, Repr

/-- The value an asynchronous adapter call settles to: it resolves (`ok`) or
rejects (`fail`, a transport error caught by the strategy's `catch`). -/
inductive FetchResult (α : Type) where
  | ok (value : α)
  | fail
deriving DecidableEq, Repr

/-- Constructor-time configuration (lines 42–43): `timeout` is the check-count
budget compared against `confirmationChecks`, `blockConfirmations` the required
confirmation count. -/
structure Config where
  timeout : Nat
  blockConfirmations : Nat
deriving DecidableEq, Repr

/-- The mutable confirmation state of one tracker instance (lines 48–51):
`blockNumbers` (push-mode dedup list), `lastBlock` (poll-mode continuity
anchor; `false` in the source is `none` here), `confirmations`,
`confirmationChecks`. -/
structure ObserverState where
  blockNumbers : List Nat
  lastBlock : Option Block
  confirmations : Nat
  confirmationChecks : Nat
deriving DecidableEq, Repr

/-- The state the constructor initialises (lines 48–51). -/
def initState : ObserverState :=
  { blockNumbers := [], lastBlock := none, confirmations := 0, confirmationChecks := 0 }

/-- Which error object an `observer.error` call carries: a transport error
(thrown by an adapter call or delivered by the subscription) or the timeout
`Error` the tracker constructs itself (lines 128, 187). -/
inductive ErrKind where
  | transport
  | timeoutExceeded
deriving DecidableEq, Repr

/-- One observable effect of a cycle, in the order the code performs them:
adapter calls (`fetchReceipt`, `fetchBlock`), observer callbacks (`next`,
`errorEv`, `complete` — `errorEv` carries the receipt argument and the
`confirmations` / `confirmationChecks` values passed by `emitError`,
lines 221–228), and resource releases (`unsubscribe`, `clearTimer`,
`observableUnsub` for `this.observable.unsubscribe()` in `stop`). -/
inductive Event where
  | fetchReceipt
  | fetchBlock (hash : Nat)
  | next (receipt : Receipt) (confirmations : Nat)
  | errorEv (kind : ErrKind) (receipt : Option Receipt) (confirmations : Nat) (checks : Nat)
  | complete
  | unsubscribe
  | clearTimer
  | observableUnsub
deriving DecidableEq, Repr

/-- `isConfirmed` (lines 253–255): `this.confirmations === this.blockConfirmations`. -/
def isConfirmed (cfg : Config) (confirmations : Nat) : Bool :=
  confirmations == cfg.blockConfirmations

/-- `isValidConfirmation` (lines 266–268):
`this.lastBlock.hash === block.parentHash && this.lastBlock.number !== block.number`. -/
def isValidConfirmation (lastBlock block : Block) : Bool :=
  lastBlock.hash == block.parentHash && lastBlock.number != block.number

/-- `isTimeoutTimeExceeded` (lines 277–279):
`this.confirmationChecks === this.timeout`. -/
def isTimeoutTimeExceeded (cfg : Config) (confirmationChecks : Nat) : Bool :=
  confirmationChecks == cfg.timeout

/-- The external inputs of one push-mode cycle (lines 103–110): whether the
subscription delivered `newHeadError`, the announced header `newHead`, and what
`getTransactionReceiptMethod.execute()` settles to (`none` = no receipt yet). -/
structure PushInput where
  headErr : Bool
  head : Block
  receiptRes : FetchResult (Option Receipt)
deriving DecidableEq, Repr

/-- The external inputs of one poll-mode tick (lines 159, 163): what the
receipt fetch settles to, and what `getBlockByHash` settles to (only consulted
when a receipt exists). -/
structure PollInput where
  receiptRes : FetchResult (Option Receipt)
  blockRes : FetchResult Block
deriving DecidableEq, Repr

/-- One push-mode cycle, `startSocketObserver`'s subscription callback
(lines 103–143).  Returns the updated state, the cycle's effects in order, and
whether the subscription is still subscribed afterwards.  Mirrors the source:
a `newHeadError` or a rejected receipt fetch lands in the `catch` block, which
emits the error with `receipt = false` and does NOT unsubscribe; the dedup
check happens after the receipt fetch; after `observer.complete()` the callback
keeps running (no `return`), so the block number is still recorded, the check
counter still incremented and the timeout branch still evaluated. -/
def pushCycle (cfg : Config) (st : ObserverState) (inp : PushInput) :
    ObserverState × List Event × Bool :=
  if inp.headErr then
    (st, [Event.errorEv .transport none st.confirmations st.confirmationChecks], true)
  else
    match inp.receiptRes with
    | .fail =>
        (st, [Event.fetchReceipt,
              Event.errorEv .transport none st.confirmations st.confirmationChecks], true)
    | .ok receipt =>
        if st.blockNumbers.contains inp.head.number then
          (st, [Event.fetchReceipt], true)
        else
          let (st1, evs1, sub1) :=
            match receipt with
            | some r =>
                let conf := st.confirmations + 1
                if isConfirmed cfg conf then
                  ({ st with confirmations := conf },
                   [Event.next r conf, Event.unsubscribe, Event.complete], false)
                else
                  ({ st with confirmations := conf }, [Event.next r conf], true)
            | none => (st, [], true)
          let st2 := { st1 with
                        blockNumbers := st1.blockNumbers ++ [inp.head.number],
                        confirmationChecks := st1.confirmationChecks + 1 }
          if isTimeoutTimeExceeded cfg st2.confirmationChecks then
            (st2, Event.fetchReceipt :: evs1 ++
                  [Event.errorEv .timeoutExceeded receipt st2.confirmations
                     st2.confirmationChecks,
                   Event.unsubscribe], false)
          else
            (st2, Event.fetchReceipt :: evs1, sub1)

/-- One poll-mode tick, `startHttpObserver`'s interval callback
(lines 155–196).  Mirrors the source: a rejected fetch lands in the `catch`
block which clears the interval and emits the error with `receipt = false`;
with no `lastBlock` the first receipt-bearing block is accepted
unconditionally; otherwise `isValidConfirmation` gates acceptance; after
`observer.complete()` the callback keeps running, so `confirmationChecks` is
still incremented and the timeout branch still evaluated. -/
def pollCycle (cfg : Config) (st : ObserverState) (inp : PollInput) :
    ObserverState × List Event × Bool :=
  match inp.receiptRes with
  | .fail =>
      (st, [Event.fetchReceipt, Event.clearTimer,
            Event.errorEv .transport none st.confirmations st.confirmationChecks], false)
  | .ok none =>
      let st2 := { st with confirmationChecks := st.confirmationChecks + 1 }
      if isTimeoutTimeExceeded cfg st2.confirmationChecks then
        (st2, [Event.fetchReceipt, Event.clearTimer,
               Event.errorEv .timeoutExceeded none st2.confirmations
                 st2.confirmationChecks], false)
      else
        (st2, [Event.fetchReceipt], true)
  | .ok (some r) =>
      match inp.blockRes with
      | .fail =>
          (st, [Event.fetchReceipt, Event.fetchBlock r.blockHash, Event.clearTimer,
                Event.errorEv .transport none st.confirmations st.confirmationChecks], false)
      | .ok block =>
          let (st1, evs1) :=
            match st.lastBlock with
            | some last =>
                if isValidConfirmation last block then
                  ({ st with confirmations := st.confirmations + 1, lastBlock := some block },
                   [Event.next r (st.confirmations + 1)])
                else (st, ([] : List Event))
            | none =>
                ({ st with confirmations := st.confirmations + 1, lastBlock := some block },
                 [Event.next r (st.confirmations + 1)])
          let (evs2, active2) :=
            if isConfirmed cfg st1.confirmations then
              ([Event.clearTimer, Event.complete], false)
            else (([] : List Event), true)
          let st2 := { st1 with confirmationChecks := st1.confirmationChecks + 1 }
          if isTimeoutTimeExceeded cfg st2.confirmationChecks then
            (st2, Event.fetchReceipt :: Event.fetchBlock r.blockHash ::
                  (evs1 ++ evs2 ++
                   [Event.clearTimer,
                    Event.errorEv .timeoutExceeded (some r) st2.confirmations
                      st2.confirmationChecks]), false)
          else
            (st2, Event.fetchReceipt :: Event.fetchBlock r.blockHash :: (evs1 ++ evs2),
             active2)

/-- A push-mode run: the subscription delivers announcements one by one; once
a cycle has unsubscribed, no further announcement is processed. -/
def runPush (cfg : Config) : ObserverState → List PushInput → ObserverState × List Event
  | st, [] => (st, [])
  | st, inp :: rest =>
      let out := pushCycle cfg st inp
      if out.2.2 then
        let tail := runPush cfg out.1 rest
        (tail.1, out.2.1 ++ tail.2)
      else (out.1, out.2.1)

/-- A poll-mode run: the interval fires tick after tick; once a cycle has
cleared the interval, no further tick occurs. -/
def runPoll (cfg : Config) : ObserverState → List PollInput → ObserverState × List Event
  | st, [] => (st, [])
  | st, inp :: rest =>
      let out := pollCycle cfg st inp
      if out.2.2 then
        let tail := runPoll cfg out.1 rest
        (tail.1, out.2.1 ++ tail.2)
      else (out.1, out.2.1)

/-- A tracker instance: the provider's constructor name (used by
`isSocketBasedProvider`, lines 288–296), the confirmation state fields, and
whether `this.observable` has been assigned (line 66; `false` initially). -/
structure Tracker where
  provider : String
  state : ObserverState
  observable : Bool
deriving DecidableEq, Repr

/-- The constructor (lines 33–54): confirmation state starts empty,
`this.observable = false`. -/
def mkTracker (provider : String) : Tracker :=
  { provider := provider, state := initState, observable := false }

/-- `observe` (lines 65–75): assigns `this.observable` and returns it.  It
touches none of the confirmation state fields. -/
def observe (t : Tracker) : Tracker :=
  { t with observable := true }

/-- `isSocketBasedProvider` (lines 288–296): `CustomProvider` and
`HttpProvider` are not socket based, every other constructor name is. -/
def isSocketBasedProvider (t : Tracker) : Bool :=
  match t.provider with
  | "CustomProvider" => false
  | "HttpProvider" => false
  | _ => true

/-- `stop` (lines 84–92): unconditionally unsubscribes the new-heads
subscription (socket providers) or clears the interval (HTTP), then calls
`this.observable.unsubscribe()`.  It reads no guard flag and writes no state. -/
def stop (t : Tracker) : Tracker × List Event :=
  (t, (if isSocketBasedProvider t then [Event.unsubscribe] else [Event.clearTimer]) ++
      [Event.observableUnsub])

/-- Two consecutive `stop()` calls and their combined effect trace. -/
def stopTwice (t : Tracker) : Tracker × List Event :=
  let fst := stop t
  let snd := stop fst.1
  (snd.1, fst.2 ++ snd.2)

/-- Recognises an `observer.error` call. -/
def isErrorEv : Event → Bool
  | .errorEv _ _ _ _ => true
  | _ => false

/-- Recognises the timeout `observer.error` call. -/
def isTimeoutErrorEv : Event → Bool
  | .errorEv .timeoutExceeded _ _ _ => true
  | _ => false

/-- Recognises an `observer.next` call. -/
def isNextEv : Event → Bool
  | .next _ _ => true
  | _ => false

/-- Recognises any observer callback (`next`, `error` or `complete`). -/
def isCallbackEv : Event → Bool
  | .next _ _ => true
  | .errorEv _ _ _ _ => true
  | .complete => true
  | _ => false

/-- Whether a trace contains an `observer.error` call. -/
def hasErr (evs : List Event) : Bool := evs.any isErrorEv

/-- Whether a trace contains the timeout `observer.error` call. -/
def hasTimeoutErr (evs : List Event) : Bool := evs.any isTimeoutErrorEv

/-- Every `next` event in the trace reports at most `bound` confirmations. -/
def nextConfLe (bound : Nat) : Event → Bool
  | .next _ c => decide (c ≤ bound)
  | _ => true

/-- A push-mode cycle reaches the check-count stage (lines 123–124) iff the
subscription delivered no error, the receipt fetch resolved, and the announced
block number had not been seen before. -/
def pushReachesChecks (st : ObserverState) (inp : PushInput) : Bool :=
  !inp.headErr &&
    (match inp.receiptRes with
     | .ok _ => !(st.blockNumbers.contains inp.head.number)
     | .fail => false)

/-- A poll-mode tick reaches the check-count stage (line 181) iff the receipt
fetch resolved and, when a receipt exists, the block fetch also resolved. -/
def pollReachesChecks (inp : PollInput) : Bool :=
  match inp.receiptRes with
  | .fail => false
  | .ok none => true
  | .ok (some _) =>
      match inp.blockRes with
      | .fail => false
      | .ok _ => true

/-- A push announcement of height `n` whose receipt fetch resolves to a
receipt (fixture for concrete scenarios). -/
def pushAt (n : Nat) : PushInput :=
  { headErr := false,
    head := { hash := n, parentHash := n - 1, number := n },
    receiptRes := .ok (some { blockHash := 100 }) }

/-- A poll tick whose receipt fetch resolves to a receipt in block hash 100
and whose block fetch resolves to the block 9 with hash 7 (fixture). -/
def pollTick : PollInput :=
  { receiptRes := .ok (some { blockHash := 100 }),
    blockRes := .ok { hash := 7, parentHash := 6, number := 9 } }

/-- Fixture configuration with a roomy check budget and 5 required
confirmations. -/
def wCfg : Config := { timeout := 100, blockConfirmations := 5 }

/-- Fixture configuration whose check budget is hit on the first cycle. -/
def wTCfg : Config := { timeout := 1, blockConfirmations := 2 }

/-- Fixture configuration where the required confirmation count and the check
budget are both reached on the first cycle. -/
def wCCfg : Config := { timeout := 1, blockConfirmations := 1 }

/-- Fixture state whose dedup list already holds block number 10. -/
def wDupState : ObserverState :=
  { blockNumbers := [10], lastBlock := none, confirmations := 0, confirmationChecks := 0 }

/-- Fixture push announcement whose receipt fetch rejects. -/
def wFailInput : PushInput :=
  { headErr := false, head := { hash := 5, parentHash := 4, number := 5 },
    receiptRes := .fail }

/-- Fixture previously accepted block. -/
def wLast : Block := { hash := 1, parentHash := 0, number := 5 }

/-- Fixture candidate block: chain-continuous with wLast and taller. -/
def wCand : Block := { hash := 2, parentHash := 1, number := 6 }

/-- Fixture receipt. -/
def wReceipt : Receipt := { blockHash := 100 }

/-- Fixture poll state with wLast as its continuity anchor. -/
def wState : ObserverState :=
  { blockNumbers := [], lastBlock := some wLast, confirmations := 1, confirmationChecks := 0 }

/-- Fixture poll tick resolving to wReceipt and wCand. -/
def wInput : PollInput := { receiptRes := .ok (some wReceipt), blockRes := .ok wCand }

/-!
## Claim theorems
-/

/-- C8 (confirmed): push mode with `blockConfirmations = 2`, a large timeout
budget, three announcements at heights 10, 11, 12 and a receipt available
from the first announcement onward emits exactly two `next` events
(`confirmations = 1`, then `2`), then unsubscribes and completes; the third
announcement is never processed (only two receipt fetches appear). -/
theorem push_happy_path_scenario :
    runPush { timeout := 100, blockConfirmations := 2 } initState
        [pushAt 10, pushAt 11, pushAt 12] =
      ({ blockNumbers := [10, 11], lastBlock := none,
         confirmations := 2, confirmationChecks := 2 },
       [Event.fetchReceipt, Event.next { blockHash := 100 } 1,
        Event.fetchReceipt, Event.next { blockHash := 100 } 2,
        Event.unsubscribe, Event.complete]) := by
  decide

/-- C1 counterexample: with `lastConfirmedBlock` of height 5 and a candidate
of height 3 whose `parentHash` matches, the candidate is NOT strictly taller,
yet `isValidConfirmation` accepts it and the poll tick increments
`confirmations` from 1 to 2 and emits progress — the source compares
`lastBlock.number !== block.number`, not `<`. -/
theorem poll_accepts_shorter_block :
    isValidConfirmation { hash := 1, parentHash := 0, number := 5 }
        { hash := 2, parentHash := 1, number := 3 } = true ∧
    ¬ (5 < 3) ∧
    (pollCycle { timeout := 100, blockConfirmations := 5 }
        { blockNumbers := [], lastBlock := some { hash := 1, parentHash := 0, number := 5 },
          confirmations := 1, confirmationChecks := 0 }
        { receiptRes := .ok (some { blockHash := 100 }),
          blockRes := .ok { hash := 2, parentHash := 1, number := 3 } }).1.confirmations
      = 2 ∧
    Event.next { blockHash := 100 } 2 ∈
      (pollCycle { timeout := 100, blockConfirmations := 5 }
        { blockNumbers := [], lastBlock := some { hash := 1, parentHash := 0, number := 5 },
          confirmations := 1, confirmationChecks := 0 }
        { receiptRes := .ok (some { blockHash := 100 }),
          blockRes := .ok { hash := 2, parentHash := 1, number := 3 } }).2.1 := by
  decide

/-- C2 counterexample: two announcements carrying the same block number 10
trigger two receipt fetches — the source fetches the receipt (line 110)
before consulting the dedup list (line 112), so a repeated announcement is
not ignored before the fetch. -/
theorem push_duplicate_number_fetches_twice :
    ((runPush { timeout := 100, blockConfirmations := 2 } initState
        [pushAt 10, pushAt 10]).2.count Event.fetchReceipt = 2) ∧
    (pushAt 10).head.number = 10 := by
  decide

/-- C3 counterexample: with `blockConfirmations = 1` and `timeout = 1`, the
first poll tick that finds a receipt reaches the required confirmation count
(invoking `complete`) and in the same cycle its check-count increment hits the
timeout budget, so the tracker also invokes `error` — both terminal callbacks
fire in one lifetime. -/
theorem poll_complete_and_error_same_cycle :
    Event.complete ∈
        (pollCycle { timeout := 1, blockConfirmations := 1 } initState pollTick).2.1 ∧
    hasErr (pollCycle { timeout := 1, blockConfirmations := 1 } initState pollTick).2.1
      = true := by
  decide

/-- C4 counterexample: a push-mode cycle whose receipt fetch rejects surfaces
a transport error with receipt absent, but performs no unsubscribe — the
subscription stays active (the `catch` block, lines 136–142, does not release
the resource). -/
theorem push_transport_error_keeps_subscription :
    (pushCycle { timeout := 100, blockConfirmations := 2 } initState
        { headErr := false, head := { hash := 5, parentHash := 4, number := 5 },
          receiptRes := .fail }) =
      (initState,
       [Event.fetchReceipt, Event.errorEv .transport none 0 0], true) ∧
    Event.unsubscribe ∉
      (pushCycle { timeout := 100, blockConfirmations := 2 } initState
        { headErr := false, head := { hash := 5, parentHash := 4, number := 5 },
          receiptRes := .fail }).2.1 := by
  decide

/-- C5 counterexample: on a socket-based tracker, calling stop twice does not
produce the same effect trace as calling it once — the external unsubscribe
is issued twice (the source keeps no stopped flag, lines 84–92). -/
theorem stop_twice_duplicates_unsubscribe :
    (stopTwice (observe (mkTracker "WebsocketProvider"))).2 ≠
      (stop (observe (mkTracker "WebsocketProvider"))).2 ∧
    (stopTwice (observe (mkTracker "WebsocketProvider"))).2.count Event.unsubscribe
      = 2 := by
  decide

/-- C9 counterexample: run a poll observation to successful completion
(`complete` is emitted, `confirmations = 1`); `observe` on the same instance
does not reset the confirmation state, so the state visible to the first cycle
of the new stream has `confirmations ≠ 0`. -/
theorem observe_reuse_sees_stale_state :
    Event.complete ∈
        (runPoll { timeout := 100, blockConfirmations := 1 } initState [pollTick]).2 ∧
    (observe { provider := "HttpProvider",
               state := (runPoll { timeout := 100, blockConfirmations := 1 }
                           initState [pollTick]).1,
               observable := true }).state.confirmations ≠ 0 := by
  decide

/-- Unfolding of the confirmation-policy predicate: the source accepts a
candidate iff its parentHash equals the anchor's hash and its number differs
from the anchor's. -/
theorem isValidConfirmation_iff (last b : Block) :
    isValidConfirmation last b = true ↔ last.hash = b.parentHash ∧ last.number ≠ b.number := by
  simp [isValidConfirmation]

/-- One push cycle keeps confirmations within the budget: starting strictly
below blockConfirmations, the cycle ends at or below it, ends strictly below
it whenever the subscription stays active, and every progress event it emits
reports at most blockConfirmations confirmations. -/
theorem pushCycle_conf_step (cfg : Config) (st : ObserverState) (inp : PushInput)
    (h : st.confirmations < cfg.blockConfirmations) :
    (pushCycle cfg st inp).1.confirmations ≤ cfg.blockConfirmations ∧
    ((pushCycle cfg st inp).2.2 = true →
       (pushCycle cfg st inp).1.confirmations < cfg.blockConfirmations) ∧
    (pushCycle cfg st inp).2.1.all (nextConfLe cfg.blockConfirmations) = true := by
  obtain ⟨he, hd, rr⟩ := inp
  cases he
  · cases rr with
    | fail => simp [pushCycle, nextConfLe]; omega
    | ok ro =>
        by_cases hm : hd.number ∈ st.blockNumbers
        · simp [pushCycle, hm, nextConfLe]; omega
        · cases ro with
          | none =>
              by_cases ht : st.confirmationChecks + 1 = cfg.timeout <;>
                simp [pushCycle, hm, isTimeoutTimeExceeded, ht, nextConfLe] <;> omega
          | some r =>
              by_cases ht : st.confirmationChecks + 1 = cfg.timeout <;>
                by_cases hcf : st.confirmations + 1 = cfg.blockConfirmations <;>
                  simp [pushCycle, hm, isConfirmed, isTimeoutTimeExceeded, ht, hcf,
                        nextConfLe] <;> omega
  · simp [pushCycle, nextConfLe]; omega

/-- One poll tick keeps confirmations within the budget: starting strictly
below blockConfirmations, the tick ends at or below it, ends strictly below
it whenever the interval stays active, and every progress event it emits
reports at most blockConfirmations confirmations. -/
theorem pollCycle_conf_step (cfg : Config) (st : ObserverState) (inp : PollInput)
    (h : st.confirmations < cfg.blockConfirmations) :
    (pollCycle cfg st inp).1.confirmations ≤ cfg.blockConfirmations ∧
    ((pollCycle cfg st inp).2.2 = true →
       (pollCycle cfg st inp).1.confirmations < cfg.blockConfirmations) ∧
    (pollCycle cfg st inp).2.1.all (nextConfLe cfg.blockConfirmations) = true := by
  obtain ⟨rr, br⟩ := inp
  cases rr with
  | fail => simp [pollCycle, nextConfLe]; omega
  | ok ro =>
      cases ro with
      | none =>
          by_cases ht : st.confirmationChecks + 1 = cfg.timeout <;>
            simp [pollCycle, isTimeoutTimeExceeded, ht, nextConfLe] <;> omega
      | some r =>
          cases br with
          | fail => simp [pollCycle, nextConfLe]; omega
          | ok b =>
              rcases hlb : st.lastBlock with _ | last
              · by_cases ht : st.confirmationChecks + 1 = cfg.timeout <;>
                  by_cases hcf : st.confirmations + 1 = cfg.blockConfirmations <;>
                    simp [pollCycle, hlb, isConfirmed, isTimeoutTimeExceeded, ht, hcf,
                          nextConfLe] <;> omega
              · by_cases hv : isValidConfirmation last b = true
                · by_cases ht : st.confirmationChecks + 1 = cfg.timeout <;>
                    by_cases hcf : st.confirmations + 1 = cfg.blockConfirmations <;>
                      simp [pollCycle, hlb, hv, isConfirmed, isTimeoutTimeExceeded,
                            ht, hcf, nextConfLe] <;> omega
                · by_cases ht : st.confirmationChecks + 1 = cfg.timeout <;>
                    by_cases hcf : st.confirmations = cfg.blockConfirmations <;>
                      simp [pollCycle, hlb, hv, isConfirmed, isTimeoutTimeExceeded,
                            ht, hcf, nextConfLe] <;> omega

/-- Along any push-mode run started strictly below the required count,
confirmations stays at or below blockConfirmations and every emitted progress
event reports at most blockConfirmations confirmations. -/
theorem runPush_conf_invariant (cfg : Config) (inps : List PushInput) :
    ∀ st : ObserverState, st.confirmations < cfg.blockConfirmations →
      (runPush cfg st inps).1.confirmations ≤ cfg.blockConfirmations ∧
      (runPush cfg st inps).2.all (nextConfLe cfg.blockConfirmations) = true := by
  induction inps with
  | nil => intro st h; simp [runPush]; omega
  | cons inp rest ih =>
      intro st h
      have hstep := pushCycle_conf_step cfg st inp h
      by_cases hsub : (pushCycle cfg st inp).2.2 = true
      · have htail := ih _ (hstep.2.1 hsub)
        simp only [runPush, hsub, if_true, List.all_append]
        refine ⟨htail.1, ?_⟩
        simp [hstep.2.2, htail.2]
      · simp only [runPush, hsub, if_false]
        exact ⟨hstep.1, hstep.2.2⟩

/-- Along any poll-mode run started strictly below the required count,
confirmations stays at or below blockConfirmations and every emitted progress
event reports at most blockConfirmations confirmations. -/
theorem runPoll_conf_invariant (cfg : Config) (inps : List PollInput) :
    ∀ st : ObserverState, st.confirmations < cfg.blockConfirmations →
      (runPoll cfg st inps).1.confirmations ≤ cfg.blockConfirmations ∧
      (runPoll cfg st inps).2.all (nextConfLe cfg.blockConfirmations) = true := by
  induction inps with
  | nil => intro st h; simp [runPoll]; omega
  | cons inp rest ih =>
      intro st h
      have hstep := pollCycle_conf_step cfg st inp h
      by_cases hsub : (pollCycle cfg st inp).2.2 = true
      · have htail := ih _ (hstep.2.1 hsub)
        simp only [runPoll, hsub, if_true, List.all_append]
        refine ⟨htail.1, ?_⟩
        simp [hstep.2.2, htail.2]
      · simp only [runPoll, hsub, if_false]
        exact ⟨hstep.1, hstep.2.2⟩

/-- A push cycle either leaves the dedup list unchanged or appends exactly the
announced number, and it appends only when that number was not yet present. -/
theorem pushCycle_blockNumbers (cfg : Config) (st : ObserverState) (inp : PushInput) :
    (pushCycle cfg st inp).1.blockNumbers = st.blockNumbers ∨
    ((pushCycle cfg st inp).1.blockNumbers = st.blockNumbers ++ [inp.head.number] ∧
     inp.head.number ∉ st.blockNumbers) := by
  obtain ⟨he, hd, rr⟩ := inp
  cases he
  · cases rr with
    | fail => left; simp [pushCycle]
    | ok ro =>
        by_cases hm : hd.number ∈ st.blockNumbers
        · left; simp [pushCycle, hm]
        · right
          refine ⟨?_, hm⟩
          cases ro with
          | none =>
              by_cases ht : st.confirmationChecks + 1 = cfg.timeout <;>
                simp [pushCycle, hm, isTimeoutTimeExceeded, ht]
          | some r =>
              by_cases ht : st.confirmationChecks + 1 = cfg.timeout <;>
                by_cases hcf : st.confirmations + 1 = cfg.blockConfirmations <;>
                  simp [pushCycle, hm, isConfirmed, isTimeoutTimeExceeded, ht, hcf]
  · left; simp [pushCycle]

/-- A push-mode run preserves freedom from duplicates of the dedup list: each
block number is recorded (processed with state effects) at most once. -/
theorem runPush_nodup (cfg : Config) (inps : List PushInput) :
    ∀ st : ObserverState, st.blockNumbers.Nodup →
      (runPush cfg st inps).1.blockNumbers.Nodup := by
  induction inps with
  | nil => intro st h; simpa [runPush] using h
  | cons inp rest ih =>
      intro st h
      have hstep : (pushCycle cfg st inp).1.blockNumbers.Nodup := by
        rcases pushCycle_blockNumbers cfg st inp with heq | ⟨heq, hm⟩
        · rwa [heq]
        · rw [heq]
          simp [List.nodup_append, h, hm]
      by_cases hsub : (pushCycle cfg st inp).2.2 = true
      · simpa only [runPush, hsub, if_true] using ih _ hstep
      · simpa only [runPush, hsub, if_false] using hstep

/-- C1 (corrected, amended): in a poll tick where a receipt exists and
lastConfirmedBlock is set, the fetched candidate is accepted — confirmations
incremented, progress emitted, lastConfirmedBlock updated — iff it is
chain-continuous with the previously accepted block AND its block number
differs from that block's number: the source compares heights with !==, not
with a strictly-taller check. -/
theorem poll_accept_iff_continuous_and_number_ne
    (cfg : Config) (st : ObserverState) (inp : PollInput) (last b : Block) (r : Receipt)
    (hl : st.lastBlock = some last)
    (hr : inp.receiptRes = .ok (some r))
    (hb : inp.blockRes = .ok b) :
    ((pollCycle cfg st inp).1.confirmations = st.confirmations + 1 ∧
     (pollCycle cfg st inp).1.lastBlock = some b ∧
     Event.next r (st.confirmations + 1) ∈ (pollCycle cfg st inp).2.1)
      ↔ (last.hash = b.parentHash ∧ last.number ≠ b.number) := by
  rw [← isValidConfirmation_iff]
  by_cases hv : isValidConfirmation last b = true
  · by_cases hcf : isConfirmed cfg (st.confirmations + 1) = true
    · by_cases ht : isTimeoutTimeExceeded cfg (st.confirmationChecks + 1) = true
      · simp [pollCycle, hr, hb, hl, hv, hcf, ht]
      · simp [pollCycle, hr, hb, hl, hv, hcf, ht]
    · by_cases ht : isTimeoutTimeExceeded cfg (st.confirmationChecks + 1) = true
      · simp [pollCycle, hr, hb, hl, hv, hcf, ht]
      · simp [pollCycle, hr, hb, hl, hv, hcf, ht]
  · by_cases hcf : isConfirmed cfg st.confirmations = true
    · by_cases ht : isTimeoutTimeExceeded cfg (st.confirmationChecks + 1) = true
      · simp [pollCycle, hr, hb, hl, hv, hcf, ht]
      · simp [pollCycle, hr, hb, hl, hv, hcf, ht]
    · by_cases ht : isTimeoutTimeExceeded cfg (st.confirmationChecks + 1) = true
      · simp [pollCycle, hr, hb, hl, hv, hcf, ht]
      · simp [pollCycle, hr, hb, hl, hv, hcf, ht]

/-- C2 (corrected, amended): the push-mode dedup guards state, not the fetch —
along any run the dedup list stays duplicate-free, so a given announced block
number is processed (state updated, events emitted) at most once, while every
error-free announcement cycle performs the receipt fetch, repeated block
numbers included. -/
theorem push_dedup_protects_state_not_fetch
    (cfg : Config) (inps : List PushInput) (st : ObserverState)
    (hnd : st.blockNumbers.Nodup)
    (sinp : PushInput) (hhe : sinp.headErr = false) :
    (runPush cfg st inps).1.blockNumbers.Nodup ∧
    Event.fetchReceipt ∈ (pushCycle cfg st sinp).2.1 := by
  refine ⟨runPush_nodup cfg inps st hnd, ?_⟩
  obtain ⟨he, hd, rr⟩ := sinp
  cases he
  · cases rr with
    | fail => simp [pushCycle]
    | ok ro =>
        by_cases hm : hd.number ∈ st.blockNumbers
        · simp [pushCycle, hm]
        · cases ro with
          | none =>
              by_cases ht : st.confirmationChecks + 1 = cfg.timeout <;>
                simp [pushCycle, hm, isTimeoutTimeExceeded, ht]
          | some r =>
              by_cases ht : st.confirmationChecks + 1 = cfg.timeout <;>
                by_cases hcf : st.confirmations + 1 = cfg.blockConfirmations <;>
                  simp [pushCycle, hm, isConfirmed, isTimeoutTimeExceeded, ht, hcf]
  · simp at hhe

/-- C3 (corrected, amended): a cycle that invokes complete also invokes error
precisely when that same cycle's check-count increment reaches the timeout
budget — after observer.complete() the callback keeps running, so the
confirm/timeout coincidence cycle emits both terminal callbacks; outside that
coincidence a completing cycle emits no error. -/
theorem complete_cycle_error_iff_timeout
    (cfg : Config) (st : ObserverState) (sinp : PushInput) (pinp : PollInput) :
    (Event.complete ∈ (pushCycle cfg st sinp).2.1 →
       (hasErr (pushCycle cfg st sinp).2.1 = true ↔
        st.confirmationChecks + 1 = cfg.timeout)) ∧
    (Event.complete ∈ (pollCycle cfg st pinp).2.1 →
       (hasErr (pollCycle cfg st pinp).2.1 = true ↔
        st.confirmationChecks + 1 = cfg.timeout)) := by
  constructor
  · obtain ⟨he, hd, rr⟩ := sinp
    cases he
    · cases rr with
      | fail => simp [pushCycle]
      | ok ro =>
          by_cases hm : hd.number ∈ st.blockNumbers
          · simp [pushCycle, hm]
          · cases ro with
            | none =>
                by_cases ht : st.confirmationChecks + 1 = cfg.timeout <;>
                  simp [pushCycle, hm, isTimeoutTimeExceeded, ht, hasErr, isErrorEv]
            | some r =>
                by_cases ht : st.confirmationChecks + 1 = cfg.timeout <;>
                  by_cases hcf : st.confirmations + 1 = cfg.blockConfirmations <;>
                    simp [pushCycle, hm, isConfirmed, isTimeoutTimeExceeded, ht, hcf,
                          hasErr, isErrorEv]
    · simp [pushCycle]
  · obtain ⟨rr, br⟩ := pinp
    cases rr with
    | fail => simp [pollCycle]
    | ok ro =>
        cases ro with
        | none =>
            by_cases ht : st.confirmationChecks + 1 = cfg.timeout <;>
              simp [pollCycle, isTimeoutTimeExceeded, ht, hasErr, isErrorEv]
        | some r =>
            cases br with
            | fail => simp [pollCycle]
            | ok b =>
                rcases hlb : st.lastBlock with _ | last
                · by_cases ht : st.confirmationChecks + 1 = cfg.timeout <;>
                    by_cases hcf : st.confirmations + 1 = cfg.blockConfirmations <;>
                      simp [pollCycle, hlb, isConfirmed, isTimeoutTimeExceeded, ht, hcf,
                            hasErr, isErrorEv]
                · by_cases hv : isValidConfirmation last b = true
                  · by_cases ht : st.confirmationChecks + 1 = cfg.timeout <;>
                      by_cases hcf : st.confirmations + 1 = cfg.blockConfirmations <;>
                        simp [pollCycle, hlb, hv, isConfirmed, isTimeoutTimeExceeded,
                              ht, hcf, hasErr, isErrorEv]
                  · by_cases ht : st.confirmationChecks + 1 = cfg.timeout <;>
                      by_cases hcf : st.confirmations = cfg.blockConfirmations <;>
                        simp [pollCycle, hlb, hv, isConfirmed, isTimeoutTimeExceeded,
                              ht, hcf, hasErr, isErrorEv]

/-- C4 (corrected, amended): every poll-mode cycle that surfaces an error also
clears the interval in that same cycle, and the push-mode timeout error cycle
unsubscribes in that same cycle; but a push-mode transport/subscription
failure, though surfaced with receipt absent, releases nothing — the
subscription remains active after the error. -/
theorem error_cycle_resource_release
    (cfg : Config) (st : ObserverState) (pinp : PollInput) (sinp fsinp : PushInput)
    (hfail : fsinp.headErr = true ∨ fsinp.receiptRes = .fail) :
    (hasErr (pollCycle cfg st pinp).2.1 = true →
       Event.clearTimer ∈ (pollCycle cfg st pinp).2.1) ∧
    (hasTimeoutErr (pushCycle cfg st sinp).2.1 = true →
       Event.unsubscribe ∈ (pushCycle cfg st sinp).2.1) ∧
    Event.errorEv .transport none st.confirmations st.confirmationChecks ∈
      (pushCycle cfg st fsinp).2.1 ∧
    Event.unsubscribe ∉ (pushCycle cfg st fsinp).2.1 ∧
    (pushCycle cfg st fsinp).2.2 = true := by
  refine ⟨?_, ?_, ?_⟩
  · obtain ⟨rr, br⟩ := pinp
    cases rr with
    | fail => simp [pollCycle]
    | ok ro =>
        cases ro with
        | none =>
            by_cases ht : st.confirmationChecks + 1 = cfg.timeout <;>
              simp [pollCycle, isTimeoutTimeExceeded, ht, hasErr, isErrorEv]
        | some r =>
            cases br with
            | fail => simp [pollCycle]
            | ok b =>
                rcases hlb : st.lastBlock with _ | last
                · by_cases ht : st.confirmationChecks + 1 = cfg.timeout <;>
                    by_cases hcf : st.confirmations + 1 = cfg.blockConfirmations <;>
                      simp [pollCycle, hlb, isConfirmed, isTimeoutTimeExceeded, ht, hcf,
                            hasErr, isErrorEv]
                · by_cases hv : isValidConfirmation last b = true
                  · by_cases ht : st.confirmationChecks + 1 = cfg.timeout <;>
                      by_cases hcf : st.confirmations + 1 = cfg.blockConfirmations <;>
                        simp [pollCycle, hlb, hv, isConfirmed, isTimeoutTimeExceeded,
                              ht, hcf, hasErr, isErrorEv]
                  · by_cases ht : st.confirmationChecks + 1 = cfg.timeout <;>
                      by_cases hcf : st.confirmations = cfg.blockConfirmations <;>
                        simp [pollCycle, hlb, hv, isConfirmed, isTimeoutTimeExceeded,
                              ht, hcf, hasErr, isErrorEv]
  · obtain ⟨he, hd, rr⟩ := sinp
    cases he
    · cases rr with
      | fail => simp [pushCycle, hasTimeoutErr, isTimeoutErrorEv]
      | ok ro =>
          by_cases hm : hd.number ∈ st.blockNumbers
          · simp [pushCycle, hm, hasTimeoutErr, isTimeoutErrorEv]
          · cases ro with
            | none =>
                by_cases ht : st.confirmationChecks + 1 = cfg.timeout <;>
                  simp [pushCycle, hm, isTimeoutTimeExceeded, ht, hasTimeoutErr,
                        isTimeoutErrorEv]
            | some r =>
                by_cases ht : st.confirmationChecks + 1 = cfg.timeout <;>
                  by_cases hcf : st.confirmations + 1 = cfg.blockConfirmations <;>
                    simp [pushCycle, hm, isConfirmed, isTimeoutTimeExceeded, ht, hcf,
                          hasTimeoutErr, isTimeoutErrorEv]
    · simp [pushCycle, hasTimeoutErr, isTimeoutErrorEv]
  · obtain ⟨fhe, fhd, frr⟩ := fsinp
    cases fhe
    · rcases hfail with h | h
      · simp at h
      · simp only at h
        subst h
        simp [pushCycle]
    · simp [pushCycle]

/-- C5 (corrected, amended): stop never mutates tracker state and never
invokes an observer callback (so there is no duplicate terminal emission), but
it is not idempotent in its release effects: having no stopped flag, a second
call re-issues the unsubscribe / clearInterval and the observable unsubscribe,
so the two-call effect trace is the one-call trace performed twice. -/
theorem stop_stateless_effects (t : Tracker) :
    (stop t).1 = t ∧ (stopTwice t).1 = t ∧
    (stopTwice t).2 = (stop t).2 ++ (stop t).2 ∧
    (stopTwice t).2.all (fun e => !isCallbackEv e) = true := by
  by_cases h : isSocketBasedProvider t <;> simp [stop, stopTwice, h, isCallbackEv]

/-- C6 (confirmed): with blockConfirmations positive, along every push-mode
and poll-mode run from the initial state confirmations never exceeds
blockConfirmations and no progress event reports more than blockConfirmations
confirmations; and any cycle that raises confirmations to exactly
blockConfirmations releases its resource, so no further cycle — hence no
further progress event — can run. -/
theorem confirmations_bounded_and_terminal
    (cfg : Config) (hpos : 0 < cfg.blockConfirmations)
    (sinps : List PushInput) (pinps : List PollInput)
    (st : ObserverState) (sinp : PushInput) (pinp : PollInput)
    (hlt : st.confirmations < cfg.blockConfirmations) :
    ((runPush cfg initState sinps).1.confirmations ≤ cfg.blockConfirmations ∧
     (runPush cfg initState sinps).2.all (nextConfLe cfg.blockConfirmations) = true) ∧
    ((runPoll cfg initState pinps).1.confirmations ≤ cfg.blockConfirmations ∧
     (runPoll cfg initState pinps).2.all (nextConfLe cfg.blockConfirmations) = true) ∧
    ((pushCycle cfg st sinp).1.confirmations = cfg.blockConfirmations →
       (pushCycle cfg st sinp).2.2 = false) ∧
    ((pollCycle cfg st pinp).1.confirmations = cfg.blockConfirmations →
       (pollCycle cfg st pinp).2.2 = false) := by
  have h0 : initState.confirmations < cfg.blockConfirmations := by
    simpa [initState] using hpos
  refine ⟨runPush_conf_invariant cfg sinps initState h0,
          runPoll_conf_invariant cfg pinps initState h0, ?_, ?_⟩
  · intro heq
    rcases Bool.eq_false_or_eq_true (pushCycle cfg st sinp).2.2 with htr | hf
    · exact absurd heq (Nat.ne_of_lt ((pushCycle_conf_step cfg st sinp hlt).2.1 htr))
    · exact hf
  · intro heq
    rcases Bool.eq_false_or_eq_true (pollCycle cfg st pinp).2.2 with htr | hf
    · exact absurd heq (Nat.ne_of_lt ((pollCycle_conf_step cfg st pinp hlt).2.1 htr))
    · exact hf

/-- C7 (confirmed): in either mode, a cycle that reaches the check-count stage
emits the timeout error iff its increment makes confirmationChecks equal the
configured budget — never while below it and never in a cycle after it has
passed it (the comparison is exact equality). -/
theorem timeout_fires_iff_checks_hit_budget
    (cfg : Config) (st : ObserverState) (sinp : PushInput) (pinp : PollInput)
    (hs : pushReachesChecks st sinp = true)
    (hp : pollReachesChecks pinp = true) :
    (hasTimeoutErr (pushCycle cfg st sinp).2.1 = true ↔
       st.confirmationChecks + 1 = cfg.timeout) ∧
    (hasTimeoutErr (pollCycle cfg st pinp).2.1 = true ↔
       st.confirmationChecks + 1 = cfg.timeout) := by
  constructor
  · obtain ⟨he, hd, rr⟩ := sinp
    cases he
    · cases rr with
      | fail => simp [pushReachesChecks] at hs
      | ok ro =>
          simp [pushReachesChecks] at hs
          have hm : hd.number ∉ st.blockNumbers := by simpa using hs
          cases ro with
          | none =>
              by_cases ht : st.confirmationChecks + 1 = cfg.timeout <;>
                simp [pushCycle, hm, isTimeoutTimeExceeded, ht, hasTimeoutErr,
                      isTimeoutErrorEv]
          | some r =>
              by_cases ht : st.confirmationChecks + 1 = cfg.timeout <;>
                by_cases hcf : st.confirmations + 1 = cfg.blockConfirmations <;>
                  simp [pushCycle, hm, isConfirmed, isTimeoutTimeExceeded, ht, hcf,
                        hasTimeoutErr, isTimeoutErrorEv]
    · simp [pushReachesChecks] at hs
  · obtain ⟨rr, br⟩ := pinp
    cases rr with
    | fail => simp [pollReachesChecks] at hp
    | ok ro =>
        cases ro with
        | none =>
            by_cases ht : st.confirmationChecks + 1 = cfg.timeout <;>
              simp [pollCycle, isTimeoutTimeExceeded, ht, hasTimeoutErr, isTimeoutErrorEv]
        | some r =>
            cases br with
            | fail => simp [pollReachesChecks] at hp
            | ok b =>
                rcases hlb : st.lastBlock with _ | last
                · by_cases ht : st.confirmationChecks + 1 = cfg.timeout <;>
                    by_cases hcf : st.confirmations + 1 = cfg.blockConfirmations <;>
                      simp [pollCycle, hlb, isConfirmed, isTimeoutTimeExceeded, ht, hcf,
                            hasTimeoutErr, isTimeoutErrorEv]
                · by_cases hv : isValidConfirmation last b = true
                  · by_cases ht : st.confirmationChecks + 1 = cfg.timeout <;>
                      by_cases hcf : st.confirmations + 1 = cfg.blockConfirmations <;>
                        simp [pollCycle, hlb, hv, isConfirmed, isTimeoutTimeExceeded,
                              ht, hcf, hasTimeoutErr, isTimeoutErrorEv]
                  · by_cases ht : st.confirmationChecks + 1 = cfg.timeout <;>
                      by_cases hcf : st.confirmations = cfg.blockConfirmations <;>
                        simp [pollCycle, hlb, hv, isConfirmed, isTimeoutTimeExceeded,
                              ht, hcf, hasTimeoutErr, isTimeoutErrorEv]

/-- C9 (corrected, amended): the ConfirmationState is empty exactly at
construction time; observe only assigns the observable field and never resets
the confirmation state, so a repeated observe on the same instance exposes the
previous observation's final state to the first cycle of the new stream. -/
theorem observe_preserves_confirmation_state (t : Tracker) :
    (observe t).state = t.state ∧ (mkTracker t.provider).state = initState := by
  simp [observe, mkTracker]

/-- C10 (confirmed): a push-mode cycle whose announced block number is already
in the dedup list and whose receipt fetch resolves performs exactly the receipt
fetch and nothing else — every state field is unchanged, no observer callback
is invoked, and the subscription stays active. -/
theorem push_duplicate_cycle_frame (cfg : Config) (st : ObserverState) (inp : PushInput)
    (ro : Option Receipt) (hhe : inp.headErr = false) (hr : inp.receiptRes = .ok ro)
    (hc : st.blockNumbers.contains inp.head.number = true) :
    pushCycle cfg st inp = (st, [Event.fetchReceipt], true) := by
  have hm : inp.head.number ∈ st.blockNumbers := by simpa using hc
  simp [pushCycle, hhe, hr, hm]

/-- Witness for C1: instantiates the acceptance criterion at a continuous,
taller candidate. -/
theorem poll_accept_iff_continuous_and_number_ne_witness :
    ((pollCycle wCfg wState wInput).1.confirmations = wState.confirmations + 1 ∧
     (pollCycle wCfg wState wInput).1.lastBlock = some wCand ∧
     Event.next wReceipt (wState.confirmations + 1) ∈ (pollCycle wCfg wState wInput).2.1)
      ↔ (wLast.hash = wCand.parentHash ∧ wLast.number ≠ wCand.number) :=
  poll_accept_iff_continuous_and_number_ne wCfg wState wInput wLast wCand wReceipt
    rfl rfl rfl

/-- Witness for C2: a duplicate-free start stays duplicate-free while the
duplicate announcement still fetches. -/
theorem push_dedup_protects_state_not_fetch_witness :
    (runPush wCfg initState [pushAt 10, pushAt 10]).1.blockNumbers.Nodup ∧
    Event.fetchReceipt ∈ (pushCycle wCfg initState (pushAt 10)).2.1 :=
  push_dedup_protects_state_not_fetch wCfg [pushAt 10, pushAt 10] initState
    (by decide) (pushAt 10) rfl

/-- Witness for C3: instantiates the coincidence criterion at the
first-cycle-confirm, first-cycle-timeout configuration. -/
theorem complete_cycle_error_iff_timeout_witness :
    (Event.complete ∈ (pushCycle wCCfg initState (pushAt 10)).2.1 →
       (hasErr (pushCycle wCCfg initState (pushAt 10)).2.1 = true ↔
        initState.confirmationChecks + 1 = wCCfg.timeout)) ∧
    (Event.complete ∈ (pollCycle wCCfg initState pollTick).2.1 →
       (hasErr (pollCycle wCCfg initState pollTick).2.1 = true ↔
        initState.confirmationChecks + 1 = wCCfg.timeout)) :=
  complete_cycle_error_iff_timeout wCCfg initState (pushAt 10) pollTick

/-- Witness for C4: a concrete rejected push fetch satisfies the failure
hypothesis. -/
theorem error_cycle_resource_release_witness :
    (hasErr (pollCycle wCfg initState pollTick).2.1 = true →
       Event.clearTimer ∈ (pollCycle wCfg initState pollTick).2.1) ∧
    (hasTimeoutErr (pushCycle wCfg initState (pushAt 10)).2.1 = true →
       Event.unsubscribe ∈ (pushCycle wCfg initState (pushAt 10)).2.1) ∧
    Event.errorEv .transport none initState.confirmations initState.confirmationChecks ∈
      (pushCycle wCfg initState wFailInput).2.1 ∧
    Event.unsubscribe ∉ (pushCycle wCfg initState wFailInput).2.1 ∧
    (pushCycle wCfg initState wFailInput).2.2 = true :=
  error_cycle_resource_release wCfg initState pollTick (pushAt 10) wFailInput
    (Or.inr rfl)

/-- Witness for C5 at a concrete socket-based tracker. -/
theorem stop_stateless_effects_witness :
    (stop (mkTracker "WebsocketProvider")).1 = mkTracker "WebsocketProvider" ∧
    (stopTwice (mkTracker "WebsocketProvider")).1 = mkTracker "WebsocketProvider" ∧
    (stopTwice (mkTracker "WebsocketProvider")).2 =
      (stop (mkTracker "WebsocketProvider")).2 ++ (stop (mkTracker "WebsocketProvider")).2 ∧
    (stopTwice (mkTracker "WebsocketProvider")).2.all (fun e => !isCallbackEv e) = true :=
  stop_stateless_effects (mkTracker "WebsocketProvider")

/-- Witness for C6 at a concrete positive configuration and concrete runs. -/
theorem confirmations_bounded_and_terminal_witness :
    ((runPush wCfg initState [pushAt 10, pushAt 11]).1.confirmations ≤
        wCfg.blockConfirmations ∧
     (runPush wCfg initState [pushAt 10, pushAt 11]).2.all
        (nextConfLe wCfg.blockConfirmations) = true) ∧
    ((runPoll wCfg initState [pollTick]).1.confirmations ≤ wCfg.blockConfirmations ∧
     (runPoll wCfg initState [pollTick]).2.all
        (nextConfLe wCfg.blockConfirmations) = true) ∧
    ((pushCycle wCfg initState (pushAt 10)).1.confirmations = wCfg.blockConfirmations →
       (pushCycle wCfg initState (pushAt 10)).2.2 = false) ∧
    ((pollCycle wCfg initState pollTick).1.confirmations = wCfg.blockConfirmations →
       (pollCycle wCfg initState pollTick).2.2 = false) :=
  confirmations_bounded_and_terminal wCfg (by decide) [pushAt 10, pushAt 11] [pollTick]
    initState (pushAt 10) pollTick (by decide)

/-- Witness for C7: a budget of one check is hit exactly by the first cycle in
both modes. -/
theorem timeout_fires_iff_checks_hit_budget_witness :
    (hasTimeoutErr (pushCycle wTCfg initState (pushAt 10)).2.1 = true ↔
       initState.confirmationChecks + 1 = wTCfg.timeout) ∧
    (hasTimeoutErr (pollCycle wTCfg initState pollTick).2.1 = true ↔
       initState.confirmationChecks + 1 = wTCfg.timeout) :=
  timeout_fires_iff_checks_hit_budget wTCfg initState (pushAt 10) pollTick
    (by decide) (by decide)

/-- Witness for C9 at a concrete tracker. -/
theorem observe_preserves_confirmation_state_witness :
    (observe (mkTracker "HttpProvider")).state = (mkTracker "HttpProvider").state ∧
    (mkTracker (mkTracker "HttpProvider").provider).state = initState :=
  observe_preserves_confirmation_state (mkTracker "HttpProvider")

/-- Witness for C10: the duplicate announcement of block 10 leaves the state
untouched. -/
theorem push_duplicate_cycle_frame_witness :
    pushCycle wCfg wDupState (pushAt 10) = (wDupState, [Event.fetchReceipt], true) :=
  push_duplicate_cycle_frame wCfg wDupState (pushAt 10) (some { blockHash := 100 })
    rfl rfl (by decide)

end TransactionObserver
